import Mathlib

/-!
# Verification of the node.js authentication API token lifecycle

Shallow embedding of the repository's token codec (`utils/jwt.js`), the
auth route handlers (`routes/auth.js`), the access-guard middleware
(`middleware/auth.js`) and the cleanup sweeper (`utils/tokenCleanup.js`),
together with theorems settling the specification claims.

Tokens are modelled as structures carrying their signed payload
(`userId`, optional `email`/`role` claims), the signing secret and the
absolute expiry timestamp; this plays the role JWT strings play in the
source, with structural equality standing for exact string equality of
encoded tokens.  Timestamps are milliseconds as `Nat`.

`models/User.js` is not among the provided sources; its instance methods
(`comparePassword`, `addRefreshToken`, `removeRefreshToken`) and its
JSON serialization are modelled from the spec and marked as such below.
-/

namespace AuthApi

/-- Error kinds thrown by the `jsonwebtoken` library and discriminated on
by the handlers' `catch` blocks (`error.name`). -/
inductive JwtError where
  | jsonWebTokenError
  | tokenExpiredError
deriving DecidableEq, Repr

/-- A signed token (`utils/jwt.js`): payload claims, signing secret and
absolute expiry.  Structural equality models exact string equality of the
encoded JWT. -/
structure Token where
  userId : Nat
  email : Option String
  role : Option String
  secret : String
  expiresAt : Nat
deriving DecidableEq, Repr

/-- The `JWT_ACCESS_SECRET` environment value. -/
def accessSecret : String := "JWT_ACCESS_SECRET"

/-- The `JWT_REFRESH_SECRET` environment value (distinct from the access
secret). -/
def refreshSecret : String := "JWT_REFRESH_SECRET"

/-- Default access-token lifetime: 15 minutes in milliseconds. -/
def accessLifetimeMs : Nat := 900000

/-- Default refresh-token lifetime: 7 days in milliseconds. -/
def refreshLifetimeMs : Nat := 604800000

/-- `generateAccessToken` (`utils/jwt.js`): signs `{id, email, role}`
with the access secret. -/
def generateAccessToken (now : Nat) (id : Nat) (email role : String) : Token :=
  ⟨id, some email, some role, accessSecret, now + accessLifetimeMs⟩

/-- `generateRefreshToken` (`utils/jwt.js`): signs `{id}` with the
refresh secret. -/
def generateRefreshToken (now : Nat) (id : Nat) : Token :=
  ⟨id, none, none, refreshSecret, now + refreshLifetimeMs⟩

/-- `jwt.verify`: signature check first (`JsonWebTokenError` on secret
mismatch), then expiry (`TokenExpiredError` when `now ≥ exp`); returns
the decoded `id` claim. -/
def jwtVerify (secret : String) (now : Nat) (t : Token) : Except JwtError Nat :=
  if t.secret ≠ secret then .error .jsonWebTokenError
  else if t.expiresAt ≤ now then .error .tokenExpiredError
  else .ok t.userId

/-- `verifyAccessToken` (`utils/jwt.js`). -/
def verifyAccessToken (now : Nat) (t : Token) : Except JwtError Nat :=
  jwtVerify accessSecret now t

/-- `verifyRefreshToken` (`utils/jwt.js`). -/
def verifyRefreshToken (now : Nat) (t : Token) : Except JwtError Nat :=
  jwtVerify refreshSecret now t

/-- One element of `user.refreshTokens` (`models/User.js` embedded
schema as used by the routes: `{ token, createdAt }`). -/
structure RefreshTokenRecord where
  token : Token
  createdAt : Nat
deriving DecidableEq, Repr

/-- A persisted user document. -/
structure User where
  id : Nat
  name : String
  email : String
  password : Option String
  role : String
  googleId : Option String
  refreshTokens : List RefreshTokenRecord
deriving DecidableEq, Repr

/-- `User.findOne({ email })`. -/
def findByEmail (db : List User) (e : String) : Option User :=
  db.find? (fun u => u.email == e)

/-- `User.findById(id)`. -/
def findById (db : List User) (i : Nat) : Option User :=
  db.find? (fun u => u.id == i)

/-- `doc.save()`: replaces the stored document with the same `_id`. -/
def updateUser (db : List User) (u : User) : List User :=
  db.map (fun v => if v.id == u.id then u else v)

/-- Modelled from the spec: `models/User.js` is not among the sources.
Spec §6: the store consumes a one-way password hash; only the hash is
stored, never the plaintext.  The model's hash of plaintext `p`. -/
def hashPassword (p : String) : String := "bcrypt$12$" ++ p

/-- Modelled from the spec: `models/User.js` is not among the sources.
Spec §4.2: password compare is a hash comparison of the presented
plaintext against the stored hash (`false` for hash-less
identity-provider-only accounts). -/
def User.comparePassword (u : User) (p : String) : Bool :=
  match u.password with
  | some h => h == hashPassword p
  | none => false

/-- Modelled from the spec: `models/User.js` is not among the sources.
Spec §4.2/§3: `addRefreshToken` appends a new `RefreshTokenRecord`
(token string plus creation timestamp) to the user's record list. -/
def User.addRefreshToken (u : User) (t : Token) (now : Nat) : User :=
  { u with refreshTokens := u.refreshTokens ++ [⟨t, now⟩] }

/-- Modelled from the spec: `models/User.js` is not among the sources.
Spec §4.2: single logout removes exactly the matching record from the
record list; idempotent if already absent. -/
def User.removeRefreshToken (u : User) (t : Token) : User :=
  { u with refreshTokens := u.refreshTokens.filter (fun r => !(r.token == t)) }

/-- Modelled from the spec: `models/User.js` is not among the sources.
Spec §4.2: responses return the user profile sans secrets; the README's
example response shows exactly the fields `id`, `name`, `email`,
`role`.  JSON serialization of a user document as key/value pairs. -/
def User.toJSONFields (u : User) : List (String × String) :=
  [("id", toString u.id), ("name", u.name), ("email", u.email), ("role", u.role)]

/-- Request body of `POST /auth/register`. -/
structure RegisterBody where
  name : Option String
  email : Option String
  password : Option String
  role : Option String
deriving DecidableEq, Repr

/-- Outcome of `POST /auth/register` (`routes/auth.js`): either an error
response (HTTP status plus message) or a 201 with the serialized user
and the freshly minted token pair. -/
inductive RegisterResult where
  | error (status : Nat) (message : String)
  | created (userFields : List (String × String)) (accessToken refreshToken : Token)
deriving DecidableEq, Repr

/-- The `POST /auth/register` handler (`routes/auth.js`): validation,
duplicate-email check, role assignment from the body
(`role === "admin" ? "admin" : "user"`), token minting, refresh-record
append, 201 response.  `newId` is the id the store assigns to the new
document. -/
def authRegister (db : List User) (now : Nat) (b : RegisterBody) (newId : Nat) :
    RegisterResult × List User :=
  match b.name, b.email, b.password with
  | some nm, some em, some pw =>
    if nm == "" || em == "" || pw == "" then
      (.error 400 "Please provide name, email, and password", db)
    else if pw.length < 6 then
      (.error 400 "Password must be at least 6 characters long", db)
    else
      match findByEmail db em with
      | some _ => (.error 400 "User already exists with this email", db)
      | none =>
        let user : User :=
          ⟨newId, nm, em, some (hashPassword pw),
            if b.role == some "admin" then "admin" else "user", none, []⟩
        let accessToken := generateAccessToken now user.id user.email user.role
        let refreshToken := generateRefreshToken now user.id
        let user2 := user.addRefreshToken refreshToken now
        (.created user2.toJSONFields accessToken refreshToken, db ++ [user2])
  | _, _, _ => (.error 400 "Please provide name, email, and password", db)

/-- Outcome of `POST /auth/login` (`routes/auth.js`). -/
inductive LoginResult where
  | error (status : Nat) (message : String)
  | ok (userFields : List (String × String)) (accessToken refreshToken : Token)
deriving DecidableEq, Repr

/-- The `POST /auth/login` handler (`routes/auth.js`): validation,
lookup by email, password check, token minting, refresh-record append,
200 response.  Both credential failures return the identical
401 "Invalid credentials" response. -/
def authLogin (db : List User) (now : Nat) (email password : Option String) :
    LoginResult × List User :=
  match email, password with
  | some em, some pw =>
    if em == "" || pw == "" then
      (.error 400 "Please provide email and password", db)
    else
      match findByEmail db em with
      | none => (.error 401 "Invalid credentials", db)
      | some user =>
        if user.comparePassword pw then
          let accessToken := generateAccessToken now user.id user.email user.role
          let refreshToken := generateRefreshToken now user.id
          let user2 := user.addRefreshToken refreshToken now
          (.ok user2.toJSONFields accessToken refreshToken, updateUser db user2)
        else
          (.error 401 "Invalid credentials", db)
  | _, _ => (.error 400 "Please provide email and password", db)

/-- Outcome of `POST /auth/refresh` (`routes/auth.js`): an error
response or a 200 carrying the new access token only. -/
inductive RefreshResult where
  | error (status : Nat) (message : String)
  | ok (accessToken : Token)
deriving DecidableEq, Repr

/-- The `POST /auth/refresh` handler (`routes/auth.js`): verify the
presented refresh token (the catch of `JsonWebTokenError` /
`TokenExpiredError` yields 401 "Invalid refresh token"), load the
claimed user (absent user yields the same 401), require exact membership
of the token in the user's record list, then mint a new access token.
The store is never written. -/
def authRefresh (db : List User) (now : Nat) (body : Option Token) :
    RefreshResult × List User :=
  match body with
  | none => (.error 401 "Refresh token required", db)
  | some rt =>
    match verifyRefreshToken now rt with
    | .error _ => (.error 401 "Invalid refresh token", db)
    | .ok uid =>
      match findById db uid with
      | none => (.error 401 "Invalid refresh token", db)
      | some user =>
        if user.refreshTokens.any (fun t => t.token == rt) then
          (.ok (generateAccessToken now user.id user.email user.role), db)
        else
          (.error 401 "Invalid refresh token", db)

/-- Outcome of the logout handlers (`routes/auth.js`); both always
answer 200 with a message. -/
inductive LogoutResult where
  | ok (message : String)
deriving DecidableEq, Repr

/-- The `POST /auth/logout` handler (`routes/auth.js`), run for the
authenticated `caller`: with a `refreshToken` in the body it removes the
matching record; with no `refreshToken` it clears the whole record list
(logout from all devices). -/
def authLogout (db : List User) (caller : User) (body : Option Token) :
    LogoutResult × List User :=
  match body with
  | some rt =>
    (.ok "Logout successful", updateUser db (caller.removeRefreshToken rt))
  | none =>
    (.ok "Logged out from all devices",
      updateUser db { caller with refreshTokens := [] })

/-- The `POST /auth/logout-all` handler (`routes/auth.js`): clears the
caller's entire record list in one write. -/
def authLogoutAll (db : List User) (caller : User) : LogoutResult × List User :=
  (.ok "Logged out from all devices",
    updateUser db { caller with refreshTokens := [] })

/-- The `Authorization` request header as inspected by the middleware:
absent, present without the `Bearer ` string at its start, or
`Bearer <token>` carrying a token. -/
inductive AuthHeader where
  | missing
  | noBearer (raw : String)
  | bearer (tok : Token)
deriving DecidableEq, Repr

/-- The user document as attached to `req.user` by the middleware: the
projection `select("-password -refreshTokens")`, i.e. without the
password hash and without the refresh-token record list. -/
structure AuthedUser where
  id : Nat
  name : String
  email : String
  role : String
deriving DecidableEq, Repr

/-- The `select("-password -refreshTokens")` projection
(`middleware/auth.js`). -/
def User.toAuthed (u : User) : AuthedUser := ⟨u.id, u.name, u.email, u.role⟩

/-- Decision of the access guard: a rejection response (status plus
message) or success with the resolved user attached. -/
inductive AuthOutcome where
  | reject (status : Nat) (message : String)
  | allow (user : AuthedUser)
deriving DecidableEq, Repr

/-- The `auth` middleware (`middleware/auth.js`): bearer extraction,
access-token verification (`JsonWebTokenError` → "Invalid token.",
`TokenExpiredError` → "Token expired."), user load with secret fields
excluded, attach.  The fire-and-forget cleanup pass it also triggers is
asynchronous and never affects this decision. -/
def auth (db : List User) (now : Nat) (h : AuthHeader) : AuthOutcome :=
  match h with
  | .missing => .reject 401 "Access denied. No token provided."
  | .noBearer _ => .reject 401 "Access denied. No token provided."
  | .bearer tok =>
    match verifyAccessToken now tok with
    | .error .jsonWebTokenError => .reject 401 "Invalid token."
    | .error .tokenExpiredError => .reject 401 "Token expired."
    | .ok uid =>
      match findById db uid with
      | none => .reject 401 "Invalid token. User not found."
      | some u => .allow u.toAuthed

/-- The `adminAuth` middleware (`middleware/auth.js`) composed after
`auth`: 403 whenever the resolved user's role is not `admin`. -/
def authThenAdmin (db : List User) (now : Nat) (h : AuthHeader) : AuthOutcome :=
  match auth db now h with
  | .allow u =>
    if u.role == "admin" then .allow u
    else .reject 403 "Access denied. Admin role required."
  | r => r

/-- `cleanupUserRefreshTokens` (`utils/tokenCleanup.js`): load the user,
partition the record list by refresh-token verification, rewrite the
list to the valid subset when anything failed, return the removal
count. -/
def cleanupUserRefreshTokens (db : List User) (now : Nat) (userId : Nat) :
    List User × Nat :=
  match findById db userId with
  | none => (db, 0)
  | some user =>
    let validTokens :=
      user.refreshTokens.filter (fun r => (verifyRefreshToken now r.token).isOk)
    let expiredCount :=
      user.refreshTokens.countP (fun r => !(verifyRefreshToken now r.token).isOk)
    if 0 < expiredCount then
      (updateUser db { user with refreshTokens := validTokens }, expiredCount)
    else
      (db, expiredCount)

/-- Milliseconds per day, as produced by the handler's
`cutoffDate.setDate(cutoffDate.getDate() - olderThanDays)` date
arithmetic. -/
def msPerDay : Nat := 86400000

/-- The `$pull` update of `cleanupOldTokens` on one user document:
removes every record with `createdAt < cutoff` (an unmatched document is
left untouched, as by `updateMany`'s filter). -/
def pullOldRecords (cutoff : Nat) (u : User) : User :=
  if u.refreshTokens.any (fun r => decide (r.createdAt < cutoff)) then
    { u with refreshTokens := u.refreshTokens.filter (fun r => decide (cutoff ≤ r.createdAt)) }
  else u

/-- `cleanupOldTokens` (`utils/tokenCleanup.js`): cutoff is `now` minus
`olderThanDays` days (default 30); pulls every record older than the
cutoff from every user, regardless of cryptographic validity, and
returns the number of users modified. -/
def cleanupOldTokens (db : List User) (now : Nat) (olderThanDays : Nat := 30) :
    List User × Nat :=
  let cutoff := now - olderThanDays * msPerDay
  (db.map (pullOldRecords cutoff),
    db.countP (fun u => u.refreshTokens.any (fun r => decide (r.createdAt < cutoff))))

/-! ## Helper lemmas -/

theorem findById_some_id {db : List User} {i : Nat} {u : User}
    (h : findById db i = some u) : u.id = i := by
  have hp := List.find?_some h
  simpa using hp

theorem findById_updateUser {db : List User} {i : Nat} {w : User} (u : User)
    (h : findById db i = some w) (hu : u.id = i) :
    findById (updateUser db u) i = some u := by
  induction db with
  | nil => simp [findById] at h
  | cons v rest ih =>
    have hmap : updateUser (v :: rest) u =
        (if v.id == u.id then u else v) :: updateUser rest u := rfl
    by_cases hv : v.id = i
    · have hhead : (if v.id == u.id then u else v) = u := by
        simp [hu, hv]
      rw [hmap, hhead]
      exact List.find?_cons_of_pos _ (by simp [hu])
    · have hhead : (if v.id == u.id then u else v) = v := by
        simp [hu, hv]
      have hstep : findById rest i = some w := by
        have h2 := h
        unfold findById at h2
        rw [List.find?_cons_of_neg _ (by simp [hv])] at h2
        exact h2
      rw [hmap, hhead]
      unfold findById
      rw [List.find?_cons_of_neg _ (by simp [hv])]
      exact ih hstep

theorem verifyRefreshToken_ok_userId {now : Nat} {rt : Token} {uid : Nat}
    (h : verifyRefreshToken now rt = .ok uid) : uid = rt.userId := by
  unfold verifyRefreshToken jwtVerify at h
  split at h
  · exact absurd h (by simp)
  · split at h
    · exact absurd h (by simp)
    · exact (Except.ok.injEq _ _ ▸ h).symm

theorem any_token_eq_false_of_removed (u : User) (rt : Token) :
    ((u.removeRefreshToken rt).refreshTokens.any (fun t => t.token == rt)) = false := by
  rw [List.any_eq_false]
  intro r hr
  have := List.of_mem_filter hr
  simpa using this

theorem cleanupUser_none {db : List User} {now userId : Nat}
    (hf : findById db userId = none) :
    cleanupUserRefreshTokens db now userId = (db, 0) := by
  unfold cleanupUserRefreshTokens
  rw [hf]

theorem cleanupUser_rewrite {db : List User} {now userId : Nat} {user : User}
    (hf : findById db userId = some user)
    (hc : 0 < user.refreshTokens.countP
        (fun r => !(verifyRefreshToken now r.token).isOk)) :
    cleanupUserRefreshTokens db now userId =
      (updateUser db
          { user with refreshTokens :=
              user.refreshTokens.filter (fun r => (verifyRefreshToken now r.token).isOk) },
        user.refreshTokens.countP (fun r => !(verifyRefreshToken now r.token).isOk)) := by
  unfold cleanupUserRefreshTokens
  rw [hf]
  exact if_pos hc

theorem cleanupUser_noop {db : List User} {now userId : Nat} {user : User}
    (hf : findById db userId = some user)
    (hc : ¬ 0 < user.refreshTokens.countP
        (fun r => !(verifyRefreshToken now r.token).isOk)) :
    cleanupUserRefreshTokens db now userId =
      (db, user.refreshTokens.countP (fun r => !(verifyRefreshToken now r.token).isOk)) := by
  unfold cleanupUserRefreshTokens
  rw [hf]
  exact if_neg hc

theorem cleanupUser_count_zero {db : List User} {now userId : Nat}
    (h : ∀ u, findById db userId = some u →
        ∀ r ∈ u.refreshTokens, (verifyRefreshToken now r.token).isOk) :
    (cleanupUserRefreshTokens db now userId).2 = 0 := by
  cases hf : findById db userId with
  | none => rw [cleanupUser_none hf]
  | some u =>
    have hc0 : u.refreshTokens.countP
        (fun r => !(verifyRefreshToken now r.token).isOk) = 0 := by
      rw [List.countP_eq_zero]
      intro r hr
      simpa using h u hf r hr
    rw [cleanupUser_noop hf (by rw [hc0]; exact Nat.lt_irrefl 0), hc0]

/-! ## Claim theorems -/

/-- C6: the per-user sweep is idempotent: a second run with the same
clock finds zero records to remove, because the first run rewrites the
record list to exactly the subset of records whose tokens verify. -/
theorem cleanup_sweep_idempotent (db : List User) (now : Nat) (userId : Nat) :
    (cleanupUserRefreshTokens (cleanupUserRefreshTokens db now userId).1 now userId).2 = 0
    ∧ (∀ u, findById db userId = some u →
        ∃ u2, findById (cleanupUserRefreshTokens db now userId).1 userId = some u2
          ∧ u2.refreshTokens =
              u.refreshTokens.filter (fun r => (verifyRefreshToken now r.token).isOk)) := by
  have hchar : ∀ u, findById db userId = some u →
      ∃ u2, findById (cleanupUserRefreshTokens db now userId).1 userId = some u2
        ∧ u2.refreshTokens =
            u.refreshTokens.filter (fun r => (verifyRefreshToken now r.token).isOk) := by
    intro u hf
    have hid : u.id = userId := findById_some_id hf
    by_cases hc :
        0 < u.refreshTokens.countP (fun r => !(verifyRefreshToken now r.token).isOk)
    · refine ⟨{ u with refreshTokens :=
          u.refreshTokens.filter (fun r => (verifyRefreshToken now r.token).isOk) },
        ?_, rfl⟩
      rw [cleanupUser_rewrite hf hc]
      exact findById_updateUser _ hf hid
    · refine ⟨u, ?_, ?_⟩
      · rw [cleanupUser_noop hf hc]
        exact hf
      · have hc0 := Nat.eq_zero_of_not_pos hc
        refine (List.filter_eq_self.mpr ?_).symm
        intro r hr
        simpa using (List.countP_eq_zero.mp hc0) r hr
  refine ⟨?_, hchar⟩
  cases hf : findById db userId with
  | none =>
    rw [cleanupUser_none hf]
    rw [cleanupUser_none hf]
  | some u =>
    obtain ⟨u2, hfind2, hlist⟩ := hchar u hf
    apply cleanupUser_count_zero
    intro w hw r hr
    rw [hfind2, Option.some.injEq] at hw
    subst hw
    rw [hlist] at hr
    have hmem := List.of_mem_filter hr
    simpa using hmem

/-- C7: the age-based sweep removes exactly the records whose creation
timestamp is older than the cutoff (`now` minus the configured number of
days), independently of token verification: a record survives the sweep
iff it was present and its `createdAt` is at or after the cutoff. -/
theorem old_token_sweep_char (db : List User) (now olderThanDays : Nat) :
    (cleanupOldTokens db now olderThanDays).1 =
        db.map (pullOldRecords (now - olderThanDays * msPerDay))
    ∧ (∀ (u : User) (r : RefreshTokenRecord),
        r ∈ (pullOldRecords (now - olderThanDays * msPerDay) u).refreshTokens ↔
          (r ∈ u.refreshTokens ∧ now - olderThanDays * msPerDay ≤ r.createdAt)) := by
  refine ⟨rfl, ?_⟩
  intro u r
  generalize now - olderThanDays * msPerDay = c
  by_cases h : u.refreshTokens.any (fun r => decide (r.createdAt < c)) = true
  · have hif : (pullOldRecords c u).refreshTokens =
        u.refreshTokens.filter (fun r => decide (c ≤ r.createdAt)) := by
      unfold pullOldRecords
      rw [if_pos h]
    rw [hif]
    simp [List.mem_filter]
  · have hall : ∀ x ∈ u.refreshTokens, ¬ x.createdAt < c := by
      intro x hx
      have := List.any_eq_false.mp (Bool.eq_false_iff.mpr h) x hx
      simpa using this
    have hif : pullOldRecords c u = u := by
      unfold pullOldRecords
      exact if_neg h
    rw [hif]
    constructor
    · intro hr
      exact ⟨hr, Nat.le_of_not_lt (hall r hr)⟩
    · intro hmem
      exact hmem.1

theorem authRefresh_verify_err {db : List User} {now : Nat} {rt : Token} {e : JwtError}
    (hv : verifyRefreshToken now rt = .error e) :
    authRefresh db now (some rt) = (.error 401 "Invalid refresh token", db) := by
  simp only [authRefresh, hv]

theorem authRefresh_user_absent {db : List User} {now : Nat} {rt : Token} {uid : Nat}
    (hv : verifyRefreshToken now rt = .ok uid) (hf : findById db uid = none) :
    authRefresh db now (some rt) = (.error 401 "Invalid refresh token", db) := by
  simp only [authRefresh, hv, hf]

theorem authRefresh_member {db : List User} {now : Nat} {rt : Token} {uid : Nat} {u : User}
    (hv : verifyRefreshToken now rt = .ok uid) (hf : findById db uid = some u)
    (hm : u.refreshTokens.any (fun t => t.token == rt) = true) :
    authRefresh db now (some rt)
      = (.ok (generateAccessToken now u.id u.email u.role), db) := by
  simp only [authRefresh, hv, hf, hm, if_true]

theorem authRefresh_not_member {db : List User} {now : Nat} {rt : Token} {uid : Nat} {u : User}
    (hv : verifyRefreshToken now rt = .ok uid) (hf : findById db uid = some u)
    (hm : u.refreshTokens.any (fun t => t.token == rt) = false) :
    authRefresh db now (some rt) = (.error 401 "Invalid refresh token", db) := by
  simp only [authRefresh, hv, hf, hm]
  simp

theorem authRefresh_ok_inv {db : List User} {now : Nat} {rt a : Token}
    (h : (authRefresh db now (some rt)).1 = .ok a) :
    ∃ u, verifyRefreshToken now rt = .ok rt.userId
      ∧ findById db rt.userId = some u
      ∧ u.refreshTokens.any (fun t => t.token == rt) = true
      ∧ a = generateAccessToken now u.id u.email u.role := by
  cases hv : verifyRefreshToken now rt with
  | error e =>
    rw [authRefresh_verify_err hv] at h
    exact absurd h (by simp)
  | ok uid =>
    have huid : uid = rt.userId := verifyRefreshToken_ok_userId hv
    subst huid
    cases hf : findById db rt.userId with
    | none =>
      rw [authRefresh_user_absent hv hf] at h
      exact absurd h (by simp)
    | some u =>
      by_cases hm : u.refreshTokens.any (fun t => t.token == rt) = true
      · rw [authRefresh_member hv hf hm] at h
        refine ⟨u, rfl, rfl, hm, ?_⟩
        simpa using h.symm
      · rw [authRefresh_not_member hv hf (Bool.eq_false_iff.mpr hm)] at h
        exact absurd h (by simp)

/-! ## Claim theorems (refresh and revocation) -/

/-- C2: refresh fails with the 401 "Invalid refresh token" response both
when cryptographic verification of the presented token fails and when
the claimed user does not exist (same kind and message in both cases);
no refresh request ever changes the store (in particular the refresh
token is not rotated), and a successful refresh returns only a freshly
minted access token for the claimed user. -/
theorem refresh_error_and_no_rotation (db : List User) (now : Nat) :
    (∀ (rt : Token) (e : JwtError), verifyRefreshToken now rt = .error e →
        authRefresh db now (some rt) = (.error 401 "Invalid refresh token", db))
    ∧ (∀ (rt : Token) (uid : Nat), verifyRefreshToken now rt = .ok uid →
        findById db uid = none →
        authRefresh db now (some rt) = (.error 401 "Invalid refresh token", db))
    ∧ (∀ body : Option Token, (authRefresh db now body).2 = db)
    ∧ (∀ (rt a : Token), (authRefresh db now (some rt)).1 = .ok a →
        ∃ u, findById db rt.userId = some u
          ∧ a = generateAccessToken now u.id u.email u.role) := by
  refine ⟨?_, ?_, ?_, ?_⟩
  · intro rt e hv
    exact authRefresh_verify_err hv
  · intro rt uid hv hf
    exact authRefresh_user_absent hv hf
  · intro body
    cases body with
    | none => rfl
    | some rt =>
      cases hv : verifyRefreshToken now rt with
      | error e => rw [authRefresh_verify_err hv]
      | ok uid =>
        cases hf : findById db uid with
        | none => rw [authRefresh_user_absent hv hf]
        | some u =>
          by_cases hm : u.refreshTokens.any (fun t => t.token == rt) = true
          · rw [authRefresh_member hv hf hm]
          · rw [authRefresh_not_member hv hf (Bool.eq_false_iff.mpr hm)]
  · intro rt a h
    obtain ⟨u, _, hf, _, ha⟩ := authRefresh_ok_inv h
    exact ⟨u, hf, ha⟩

/-- C1: after a single-device logout removes a refresh token from its
owning user's record list, presenting that exact token to refresh fails
with the 401 "Invalid refresh token" response (even when the token still
verifies under the refresh secret); and refresh succeeds only when the
presented token is found by exact match in the claimed user's record
list. -/
theorem single_logout_revokes_refresh (db : List User) (now : Nat) :
    (∀ (u : User) (rt : Token), findById db u.id = some u → rt.userId = u.id →
        authRefresh (authLogout db u (some rt)).2 now (some rt)
          = (.error 401 "Invalid refresh token", (authLogout db u (some rt)).2))
    ∧ (∀ (rt a : Token), (authRefresh db now (some rt)).1 = .ok a →
        ∃ u, findById db rt.userId = some u
          ∧ rt ∈ u.refreshTokens.map RefreshTokenRecord.token) := by
  refine ⟨?_, ?_⟩
  · intro u rt hf hid
    have hdb2 : (authLogout db u (some rt)).2
        = updateUser db (u.removeRefreshToken rt) := rfl
    rw [hdb2]
    have hfind : findById (updateUser db (u.removeRefreshToken rt)) u.id
        = some (u.removeRefreshToken rt) :=
      findById_updateUser _ hf rfl
    cases hv : verifyRefreshToken now rt with
    | error e => rw [authRefresh_verify_err hv]
    | ok uid =>
      have huid : uid = rt.userId := verifyRefreshToken_ok_userId hv
      subst huid
      rw [hid] at hv
      exact authRefresh_not_member hv hfind (any_token_eq_false_of_removed u rt)
  · intro rt a h
    obtain ⟨u, _, hf, hm, _⟩ := authRefresh_ok_inv h
    refine ⟨u, hf, ?_⟩
    obtain ⟨t, ht, hteq⟩ := List.any_eq_true.mp hm
    have hteq2 : t.token = rt := by simpa using hteq
    exact hteq2 ▸ List.mem_map_of_mem RefreshTokenRecord.token ht

/-- C4: logout-all replaces the caller's stored record list by the empty
list in one write, and afterwards any refresh token claiming that user
(in particular every token previously issued to them) fails refresh with
the 401 "Invalid refresh token" response. -/
theorem logout_all_empties_and_revokes (db : List User) (now : Nat) :
    (∀ u : User, findById db u.id = some u →
        findById (authLogoutAll db u).2 u.id = some { u with refreshTokens := [] })
    ∧ (∀ (u : User) (rt : Token), findById db u.id = some u → rt.userId = u.id →
        authRefresh (authLogoutAll db u).2 now (some rt)
          = (.error 401 "Invalid refresh token", (authLogoutAll db u).2)) := by
  refine ⟨?_, ?_⟩
  · intro u hf
    have hdb2 : (authLogoutAll db u).2
        = updateUser db { u with refreshTokens := [] } := rfl
    rw [hdb2]
    exact findById_updateUser _ hf rfl
  · intro u rt hf hid
    have hdb2 : (authLogoutAll db u).2
        = updateUser db { u with refreshTokens := [] } := rfl
    rw [hdb2]
    have hfind : findById (updateUser db { u with refreshTokens := [] }) u.id
        = some { u with refreshTokens := [] } :=
      findById_updateUser _ hf rfl
    cases hv : verifyRefreshToken now rt with
    | error e => rw [authRefresh_verify_err hv]
    | ok uid =>
      have huid : uid = rt.userId := verifyRefreshToken_ok_userId hv
      subst huid
      rw [hid] at hv
      exact authRefresh_not_member hv hfind rfl

/-- C5: a login attempt against an unknown email and a login attempt
with a wrong password for an existing user fail with the same
401 response carrying the identical "Invalid credentials" message, and
in both cases the store (hence the target user's record list) is left
unchanged. -/
theorem login_invalid_credentials (db : List User) (now : Nat) :
    (∀ em pw : String, em ≠ "" → pw ≠ "" → findByEmail db em = none →
        authLogin db now (some em) (some pw) = (.error 401 "Invalid credentials", db))
    ∧ (∀ (em pw : String) (u : User), em ≠ "" → pw ≠ "" →
        findByEmail db em = some u → u.comparePassword pw = false →
        authLogin db now (some em) (some pw) = (.error 401 "Invalid credentials", db)) := by
  refine ⟨?_, ?_⟩
  · intro em pw hem hpw hf
    simp only [authLogin]
    rw [if_neg (by simp [hem, hpw])]
    simp only [hf]
  · intro em pw u hem hpw hf hcp
    simp only [authLogin]
    rw [if_neg (by simp [hem, hpw])]
    simp only [hf, hcp]
    simp

/-- C10: an authenticated logout whose body omits the refresh token
clears the caller's entire record list — the stored state coincides with
that of logout-all — while a logout presenting a refresh token removes
exactly the matching records: a record survives iff it was present and
its token differs from the presented one. -/
theorem logout_without_token_clears_all (db : List User) (caller : User) :
    (authLogout db caller none
        = (.ok "Logged out from all devices",
            updateUser db { caller with refreshTokens := [] })
      ∧ (authLogout db caller none).2 = (authLogoutAll db caller).2)
    ∧ (∀ rt : Token, authLogout db caller (some rt)
          = (.ok "Logout successful", updateUser db (caller.removeRefreshToken rt))
        ∧ ∀ r : RefreshTokenRecord,
            r ∈ (caller.removeRefreshToken rt).refreshTokens ↔
              (r ∈ caller.refreshTokens ∧ r.token ≠ rt)) := by
  refine ⟨⟨rfl, rfl⟩, ?_⟩
  intro rt
  refine ⟨rfl, ?_⟩
  intro r
  simp [User.removeRefreshToken, List.mem_filter]

/-- C3 counterexample: a registration request arriving from
unauthenticated input with `role` set to `"admin"` in the body succeeds
and persists a user whose role is `admin`, not `user`. -/
theorem register_admin_role_cex :
    (∃ f a r, (authRegister [] 0
        ⟨some "Alice", some "alice@x.com", some "secret1", some "admin"⟩ 1).1
          = .created f a r)
    ∧ ((authRegister [] 0
        ⟨some "Alice", some "alice@x.com", some "secret1", some "admin"⟩ 1).2).map User.role
        = ["admin"] := by
  exact ⟨⟨_, _, _, rfl⟩, rfl⟩

/-- C3 amended: a successful registration stores a user whose role is
`admin` exactly when the request body's `role` field equals the string
`"admin"`; any other (or absent) role value is normalized to `user`.
Role is therefore settable from the unauthenticated registration body,
not only through an admin's trusted path. -/
theorem register_role_from_body (db : List User) (now : Nat)
    (nm em pw : String) (ro : Option String) (newId : Nat)
    (hnm : nm ≠ "") (hem : em ≠ "") (hpw : ¬ pw.length < 6)
    (hf : findByEmail db em = none) :
    ∃ u : User, authRegister db now ⟨some nm, some em, some pw, ro⟩ newId
        = (.created u.toJSONFields
            (generateAccessToken now newId em
              (if ro == some "admin" then "admin" else "user"))
            (generateRefreshToken now newId), db ++ [u])
      ∧ u.role = (if ro == some "admin" then "admin" else "user")
      ∧ (ro ≠ some "admin" → u.role = "user") := by
  have hpw0 : pw ≠ "" := by
    intro hcon
    rw [hcon] at hpw
    exact hpw (by decide)
  refine ⟨(User.mk newId nm em (some (hashPassword pw))
      (if ro == some "admin" then "admin" else "user") none []).addRefreshToken
        (generateRefreshToken now newId) now, ?_, rfl, ?_⟩
  · simp only [authRegister]
    rw [if_neg (by simp [hnm, hem, hpw0])]
    rw [if_neg hpw]
    simp only [hf]
  · intro h
    have hro : (ro == some "admin") = false := by
      simpa using h
    simp [User.addRefreshToken, hro]

theorem register_created_fields {db : List User} {now : Nat} {b : RegisterBody}
    {newId : Nat} {f : List (String × String)} {a r : Token}
    (h : (authRegister db now b newId).1 = .created f a r) :
    ∃ u : User, f = u.toJSONFields := by
  rcases b with ⟨bn, be, bp, bro⟩
  cases bn with
  | none => exact absurd h (by simp [authRegister])
  | some nm =>
  cases be with
  | none => exact absurd h (by simp [authRegister])
  | some em =>
  cases bp with
  | none => exact absurd h (by simp [authRegister])
  | some pw =>
  simp only [authRegister] at h
  by_cases h1 : (nm == "" || em == "" || pw == "") = true
  · rw [if_pos h1] at h
    exact absurd h (by simp)
  · rw [if_neg h1] at h
    by_cases h2 : pw.length < 6
    · rw [if_pos h2] at h
      exact absurd h (by simp)
    · rw [if_neg h2] at h
      cases hf : findByEmail db em with
      | some w =>
        simp only [hf] at h
        exact absurd h (by simp)
      | none =>
        simp only [hf] at h
        injection h with h1 h2 h3
        exact ⟨_, h1.symm⟩

theorem login_ok_fields {db : List User} {now : Nat} {e p : Option String}
    {f : List (String × String)} {a r : Token}
    (h : (authLogin db now e p).1 = .ok f a r) :
    ∃ u : User, f = u.toJSONFields := by
  cases e with
  | none => exact absurd h (by simp [authLogin])
  | some em =>
  cases p with
  | none => exact absurd h (by simp [authLogin])
  | some pw =>
  simp only [authLogin] at h
  by_cases h1 : (em == "" || pw == "") = true
  · rw [if_pos h1] at h
    exact absurd h (by simp)
  · rw [if_neg h1] at h
    cases hf : findByEmail db em with
    | none =>
      simp only [hf] at h
      exact absurd h (by simp)
    | some u =>
      simp only [hf] at h
      by_cases hcp : u.comparePassword pw = true
      · simp only [hcp, if_true] at h
        injection h with h1 h2 h3
        exact ⟨_, h1.symm⟩
      · rw [if_neg hcp] at h
        exact absurd h (by simp)

theorem toJSONFields_keys (u : User) :
    (u.toJSONFields).map Prod.fst = ["id", "name", "email", "role"] := rfl

/-- C8: the user object in every successful register response and every
successful login response carries neither a `password` field nor a
`refreshTokens` field. -/
theorem success_response_without_secrets (db : List User) (now : Nat) :
    (∀ (b : RegisterBody) (newId : Nat) (f : List (String × String)) (a r : Token),
        (authRegister db now b newId).1 = .created f a r →
        "password" ∉ f.map Prod.fst ∧ "refreshTokens" ∉ f.map Prod.fst)
    ∧ (∀ (e p : Option String) (f : List (String × String)) (a r : Token),
        (authLogin db now e p).1 = .ok f a r →
        "password" ∉ f.map Prod.fst ∧ "refreshTokens" ∉ f.map Prod.fst) := by
  refine ⟨?_, ?_⟩
  · intro b newId f a r h
    obtain ⟨u, rfl⟩ := register_created_fields h
    rw [toJSONFields_keys]
    exact ⟨by decide, by decide⟩
  · intro e p f a r h
    obtain ⟨u, rfl⟩ := login_ok_fields h
    rw [toJSONFields_keys]
    exact ⟨by decide, by decide⟩

theorem auth_bearer_jwt_err {db : List User} {now : Nat} {tok : Token}
    (hv : verifyAccessToken now tok = .error .jsonWebTokenError) :
    auth db now (.bearer tok) = .reject 401 "Invalid token." := by
  simp only [auth, hv]

theorem auth_bearer_expired {db : List User} {now : Nat} {tok : Token}
    (hv : verifyAccessToken now tok = .error .tokenExpiredError) :
    auth db now (.bearer tok) = .reject 401 "Token expired." := by
  simp only [auth, hv]

theorem auth_bearer_user_absent {db : List User} {now : Nat} {tok : Token} {uid : Nat}
    (hv : verifyAccessToken now tok = .ok uid) (hf : findById db uid = none) :
    auth db now (.bearer tok) = .reject 401 "Invalid token. User not found." := by
  simp only [auth, hv, hf]

theorem auth_bearer_allow {db : List User} {now : Nat} {tok : Token} {uid : Nat} {u : User}
    (hv : verifyAccessToken now tok = .ok uid) (hf : findById db uid = some u) :
    auth db now (.bearer tok) = .allow u.toAuthed := by
  simp only [auth, hv, hf]

/-- C9: the access guard rejects with a 401 response in exactly three
situations — bearer token absent or header without the `Bearer ` prefix,
access-token verification failure (expired or malformed), or a verified
user id that resolves to no user; on success it attaches the resolved
user with the secret fields excluded (the attached projection is
insensitive to `password` and `refreshTokens`); and the composed admin
gate answers 403 exactly when the attached user's role is not `admin`. -/
theorem access_guard_spec (db : List User) (now : Nat) :
    (∀ h : AuthHeader, (∃ m, auth db now h = .reject 401 m) ↔
        (h = .missing ∨ (∃ s, h = .noBearer s)
          ∨ (∃ tok e, h = .bearer tok ∧ verifyAccessToken now tok = .error e)
          ∨ (∃ tok uid, h = .bearer tok ∧ verifyAccessToken now tok = .ok uid
              ∧ findById db uid = none)))
    ∧ (∀ (tok : Token) (uid : Nat) (u : User), verifyAccessToken now tok = .ok uid →
        findById db uid = some u → auth db now (.bearer tok) = .allow u.toAuthed)
    ∧ (∀ (u : User) (p g : Option String) (l : List RefreshTokenRecord),
        User.toAuthed { u with password := p, googleId := g, refreshTokens := l }
          = u.toAuthed)
    ∧ (∀ (h : AuthHeader) (u : AuthedUser), auth db now h = .allow u →
        u.role ≠ "admin" →
        authThenAdmin db now h = .reject 403 "Access denied. Admin role required.")
    ∧ (∀ (h : AuthHeader) (u : AuthedUser), auth db now h = .allow u →
        u.role = "admin" → authThenAdmin db now h = .allow u) := by
  refine ⟨?_, ?_, ?_, ?_, ?_⟩
  · intro h
    constructor
    · rintro ⟨m, hm⟩
      cases h with
      | missing => exact Or.inl rfl
      | noBearer s => exact Or.inr (Or.inl ⟨s, rfl⟩)
      | bearer tok =>
        cases hv : verifyAccessToken now tok with
        | error e => exact Or.inr (Or.inr (Or.inl ⟨tok, e, rfl, hv⟩))
        | ok uid =>
          cases hf : findById db uid with
          | none => exact Or.inr (Or.inr (Or.inr ⟨tok, uid, rfl, hv, hf⟩))
          | some u =>
            rw [auth_bearer_allow hv hf] at hm
            exact absurd hm (by simp)
    · rintro (rfl | ⟨s, rfl⟩ | ⟨tok, e, rfl, hv⟩ | ⟨tok, uid, rfl, hv, hf⟩)
      · exact ⟨_, rfl⟩
      · exact ⟨_, rfl⟩
      · cases e with
        | jsonWebTokenError => exact ⟨_, auth_bearer_jwt_err hv⟩
        | tokenExpiredError => exact ⟨_, auth_bearer_expired hv⟩
      · exact ⟨_, auth_bearer_user_absent hv hf⟩
  · intro tok uid u hv hf
    exact auth_bearer_allow hv hf
  · intro u p g l
    rfl
  · intro h u hallow hrole
    simp only [authThenAdmin, hallow]
    rw [if_neg (by simpa using hrole)]
  · intro h u hallow hrole
    simp only [authThenAdmin, hallow]
    rw [if_pos (by simpa using hrole)]

/-! ## Concrete witness data -/

/-- A refresh token issued at time 0 to user 5. -/
def rtW : Token := generateRefreshToken 0 5

/-- A sample user holding one refresh-token record. -/
def uW : User := ⟨5, "Alice", "a@x.com", some (hashPassword "secret1"), "user", none, [⟨rtW, 0⟩]⟩

/-- A sample store with one user. -/
def dbW : List User := [uW]

/-- A token signed with a wrong secret: verification fails. -/
def badTokW : Token := ⟨5, none, none, "wrong-secret", 1000000000⟩

/-- A refresh token claiming a user id absent from `dbW`. -/
def ghostTokW : Token := generateRefreshToken 0 99

theorem cleanup_sweep_idempotent_witness :
    ∃ u2, findById (cleanupUserRefreshTokens dbW 0 5).1 5 = some u2
      ∧ u2.refreshTokens =
          uW.refreshTokens.filter (fun r => (verifyRefreshToken 0 r.token).isOk) :=
  (cleanup_sweep_idempotent dbW 0 5).2 uW rfl

theorem refresh_error_and_no_rotation_witness :
    authRefresh dbW 0 (some badTokW) = (.error 401 "Invalid refresh token", dbW)
    ∧ authRefresh dbW 0 (some ghostTokW) = (.error 401 "Invalid refresh token", dbW) :=
  ⟨(refresh_error_and_no_rotation dbW 0).1 badTokW .jsonWebTokenError rfl,
   (refresh_error_and_no_rotation dbW 0).2.1 ghostTokW 99 rfl rfl⟩

theorem single_logout_revokes_refresh_witness :
    authRefresh (authLogout dbW uW (some rtW)).2 0 (some rtW)
      = (.error 401 "Invalid refresh token", (authLogout dbW uW (some rtW)).2) :=
  (single_logout_revokes_refresh dbW 0).1 uW rtW rfl rfl

theorem logout_all_empties_and_revokes_witness :
    findById (authLogoutAll dbW uW).2 uW.id = some { uW with refreshTokens := [] }
    ∧ authRefresh (authLogoutAll dbW uW).2 0 (some rtW)
        = (.error 401 "Invalid refresh token", (authLogoutAll dbW uW).2) :=
  ⟨(logout_all_empties_and_revokes dbW 0).1 uW rfl,
   (logout_all_empties_and_revokes dbW 0).2 uW rtW rfl rfl⟩

theorem login_invalid_credentials_witness :
    authLogin dbW 0 (some "nobody@x.com") (some "pw")
      = (.error 401 "Invalid credentials", dbW)
    ∧ authLogin dbW 0 (some "a@x.com") (some "wrongpw")
      = (.error 401 "Invalid credentials", dbW) :=
  ⟨(login_invalid_credentials dbW 0).1 "nobody@x.com" "pw" (by decide) (by decide) rfl,
   (login_invalid_credentials dbW 0).2 "a@x.com" "wrongpw" uW (by decide) (by decide) rfl rfl⟩

theorem register_role_from_body_witness :
    ∃ u : User, authRegister [] 0 ⟨some "Bob", some "b@x.com", some "secret1", some "admin"⟩ 2
        = (.created u.toJSONFields
            (generateAccessToken 0 2 "b@x.com"
              (if (some "admin" : Option String) == some "admin" then "admin" else "user"))
            (generateRefreshToken 0 2), [] ++ [u])
      ∧ u.role = (if (some "admin" : Option String) == some "admin" then "admin" else "user")
      ∧ ((some "admin" : Option String) ≠ some "admin" → u.role = "user") :=
  register_role_from_body [] 0 "Bob" "b@x.com" "secret1" (some "admin") 2
    (by decide) (by decide) (by decide) rfl

theorem success_response_without_secrets_witness :
    ("password" ∉ ([("id", "1"), ("name", "Alice"), ("email", "alice@x.com"),
          ("role", "user")] : List (String × String)).map Prod.fst
      ∧ "refreshTokens" ∉ ([("id", "1"), ("name", "Alice"), ("email", "alice@x.com"),
          ("role", "user")] : List (String × String)).map Prod.fst)
    ∧ ("password" ∉ ([("id", "5"), ("name", "Alice"), ("email", "a@x.com"),
          ("role", "user")] : List (String × String)).map Prod.fst
      ∧ "refreshTokens" ∉ ([("id", "5"), ("name", "Alice"), ("email", "a@x.com"),
          ("role", "user")] : List (String × String)).map Prod.fst) :=
  ⟨(success_response_without_secrets [] 0).1
      ⟨some "Alice", some "alice@x.com", some "secret1", none⟩ 1 _ _ _ rfl,
   (success_response_without_secrets dbW 0).2 (some "a@x.com") (some "secret1") _ _ _ rfl⟩

theorem access_guard_spec_witness :
    (∃ m, auth dbW 0 .missing = .reject 401 m)
    ∧ auth dbW 0 (.bearer (generateAccessToken 0 5 "a@x.com" "user")) = .allow uW.toAuthed
    ∧ authThenAdmin dbW 0 (.bearer (generateAccessToken 0 5 "a@x.com" "user"))
        = .reject 403 "Access denied. Admin role required." :=
  ⟨((access_guard_spec dbW 0).1 .missing).mpr (Or.inl rfl),
   (access_guard_spec dbW 0).2.1 (generateAccessToken 0 5 "a@x.com" "user") 5 uW rfl rfl,
   (access_guard_spec dbW 0).2.2.2.1 (.bearer (generateAccessToken 0 5 "a@x.com" "user"))
     uW.toAuthed
     ((access_guard_spec dbW 0).2.1 (generateAccessToken 0 5 "a@x.com" "user") 5 uW rfl rfl)
     (by decide)⟩

end AuthApi
